import Mathlib

/-!
Verification of the voice-assistant core (wake/capture/dispatch loop).

Shallow embedding of the repository's Python modules:
  * `assistant/wake.py`     — wake-word / push-to-talk trigger detection
  * `assistant/brain.py`    — the supervising turn loop and last-turn state
  * `assistant/audio_io.py` — fixed-duration WAV capture and playback
  * `assistant/intents.py`  — tool-call routing (`handle_tool`)
  * `assistant/llm.py`      — chat backend dispatch (`chat`)

Timestamps and scores are modelled as rationals.  External collaborators
(keyboard, sounddevice, openwakeword, requests, json, scrypted, vlm, stt,
tts) are modelled as explicit inputs/oracles; the control flow of the
repository's own functions is translated statement by statement.
-/

namespace Assistant

/-- The kind of trigger returned by `listen_for_wake`
(`"wakeword"` or `"push_to_talk"` in the source). -/
inductive Trigger
  | wakeword
  | push_to_talk
  deriving DecidableEq

/-- One iteration's worth of external input to the wake-word detection loop
in `wake.py`: the score `model.predict(data).get(config.WAKEWORD, 0.0)`
computed for the chunk pulled from the queue, whether
`keyboard.is_pressed(config.PTT_KEY)` holds at that iteration, and the
value of `time.time()` (`now`) at that iteration. -/
structure IterEvent where
  score : ℚ
  key : Bool
  now : ℚ
  deriving DecidableEq

/-- An event observed by the detection loop: either a chunk delivered by the
microphone queue (with its score, key state and timestamp), or an exception
raised inside the loop body (e.g. by `q.get()` or `model.predict`). -/
inductive LoopEvent
  | chunk (e : IterEvent)
  | exn
  deriving DecidableEq

/-- Errors `listen_for_wake` can raise: the `RuntimeError("openwakeword not
available")` fast-fail, or an exception propagated out of the loop body. -/
inductive WakeErr
  | detectorUnavailable
  | chunkExn
  deriving DecidableEq

/-- Outcome of one call to `listen_for_wake`: a trigger returned at some
timestamp, an exception, or still blocked inside the loop (the source
blocks forever when no event ever qualifies; `blocked` marks the
truncation of the event list, not an exit path). -/
inductive WakeOutcome
  | triggered (k : Trigger) (t : ℚ)
  | errored (e : WakeErr)
  | blocked
  deriving DecidableEq

/-- Resource operations performed on the microphone stream returned by
`audio_io.microphone_stream` (`stream.start()` happens inside
`microphone_stream`; `stream.stop()`/`stream.close()` in the `finally`). -/
inductive ResOp
  | opened
  | stopped
  | closed
  deriving DecidableEq

/-- The `while True:` loop of `listen_for_wake` in wake-word mode, threading
the module-level `_LAST_TRIGGER` timestamp.  Mirrors the source order:
the wake-word test (`score > threshold and now - _LAST_TRIGGER > 1.0`)
is evaluated before the push-to-talk test
(`keyboard.is_pressed(...) and now - _LAST_TRIGGER > 1.0`), and a
returning branch assigns `_LAST_TRIGGER = now` first. -/
def wakeLoop (threshold : ℚ) : List LoopEvent → ℚ → WakeOutcome × ℚ
  | [], last => (.blocked, last)
  | .exn :: _, last => (.errored .chunkExn, last)
  | .chunk e :: rest, last =>
      if e.score > threshold ∧ e.now - last > 1 then
        (.triggered .wakeword e.now, e.now)
      else if e.key = true ∧ e.now - last > 1 then
        (.triggered .push_to_talk e.now, e.now)
      else
        wakeLoop threshold rest last

/-- `listen_for_wake` from `wake.py`.  Inputs model the externals:
`usePTT` is `config.USE_PUSH_TO_TALK`, `oww` is whether the
`openwakeword` import succeeded, `pttTime` is the value of `time.time()`
when `keyboard.wait(config.PTT_KEY)` returns in push-to-talk mode,
`events` drives the wake-word loop, and `last` is the module-level
`_LAST_TRIGGER` on entry.  Returns the outcome, the trace of microphone
stream operations performed, and the final `_LAST_TRIGGER`. -/
def listen_for_wake (usePTT oww : Bool) (threshold : ℚ) (pttTime : ℚ)
    (events : List LoopEvent) (last : ℚ) : WakeOutcome × List ResOp × ℚ :=
  if usePTT then
    (.triggered .push_to_talk pttTime, [], pttTime)
  else if oww = false then
    (.errored .detectorUnavailable, [], last)
  else
    match wakeLoop threshold events last with
    | (.blocked, l) => (.blocked, [.opened], l)
    | (out, l) => (out, [.opened, .stopped, .closed], l)

/-- A sequence of wake-word-mode episodes (successive calls to
`listen_for_wake` with `USE_PUSH_TO_TALK = False` and `openwakeword`
available), collecting the triggers emitted and threading
`_LAST_TRIGGER` across calls. -/
def runEpisodes (threshold : ℚ) : List (List LoopEvent) → ℚ → List (Trigger × ℚ)
  | [], _ => []
  | es :: rest, last =>
      let r := listen_for_wake false true threshold 0 es last
      match r.1 with
      | .triggered k t => (k, t) :: runEpisodes threshold rest r.2.2
      | _ => runEpisodes threshold rest r.2.2

/-! ## `brain.py`: the turn loop and last-turn state -/

/-- The module-level last-turn state of `brain.py`
(`last_transcript`, `last_response`), both initialised to `None`. -/
structure BrainState where
  lastTranscript : Option String
  lastResponse : Option String
  deriving DecidableEq

/-- The behaviour of the external collaborators consulted during one turn of
`Brain.run_once`, each modelled as the outcome (`ok` result or raised
exception, as a message string) it would produce on that turn:
`wake.listen_for_wake()`, `audio_io.record_seconds()`,
`stt.transcribe(wav, model)`, `intents.handle_command(text)`,
`tts.speak(text)`, and (used only by `Brain.run`) the apology
`tts.speak("Sorry, something went wrong")`. -/
structure TurnEnv where
  wake : Except String Unit
  record : Except String String
  transcribe : String → Except String String
  handle_command : String → Except String String
  speak : String → Except String Unit
  apology : Except String Unit

/-- `Brain.run_once`: executes one turn.  Mirrors the source statement order:
`last_transcript` is assigned as soon as `stt.transcribe` returns,
`last_response` as soon as `intents.handle_command` returns, and
`tts.speak` runs last.  Returns the state after the turn and the turn's
outcome (`ok` or the raised exception). -/
def run_once (env : TurnEnv) (st : BrainState) : BrainState × Except String Unit :=
  match env.wake with
  | .error e => (st, .error e)
  | .ok _ =>
    match env.record with
    | .error e => (st, .error e)
    | .ok wav =>
      match env.transcribe wav with
      | .error e => (st, .error e)
      | .ok t =>
        let st1 : BrainState := { st with lastTranscript := some t }
        match env.handle_command t with
        | .error e => (st1, .error e)
        | .ok r =>
          let st2 : BrainState := { st1 with lastResponse := some r }
          match env.speak r with
          | .error e => (st2, .error e)
          | .ok _ => (st2, .ok ())

/-- What `Brain.run` records for one loop iteration: the turn succeeded, or
it failed with a logged error and the apology `tts.speak` succeeded, or it
failed and the apology also raised (which the bare `except` swallows). -/
inductive TurnLog
  | succeeded
  | failedApologized (turnErr : String)
  | failedApologySwallowed (turnErr : String) (apologyErr : String)
  deriving DecidableEq

/-- `Brain.run`: the `while True` supervision loop, run over a finite prefix
of per-turn collaborator behaviours (the source loops forever; each list
element drives one iteration).  Every iteration calls `run_once`; an
exception is caught by the `except Exception` handler, logged, answered by
one apology attempt whose own failure is swallowed, and the loop
continues with the next iteration. -/
def run (st : BrainState) : List TurnEnv → BrainState × List TurnLog
  | [] => (st, [])
  | env :: rest =>
      let r := run_once env st
      match r.2 with
      | .ok _ =>
          let rec' := run r.1 rest
          (rec'.1, .succeeded :: rec'.2)
      | .error e =>
          let entry : TurnLog :=
            match env.apology with
            | .ok _ => .failedApologized e
            | .error e2 => .failedApologySwallowed e e2
          let rec' := run r.1 rest
          (rec'.1, entry :: rec'.2)

/-! ## `audio_io.py`: fixed-duration capture and playback -/

/-- A WAV container as written by the `wave` module: the header fields set by
`record_seconds` and the size in bytes of the sample data written. -/
structure WavFile where
  nchannels : ℕ
  sampwidth : ℕ
  framerate : ℕ
  dataBytes : ℕ
  deriving DecidableEq

/-- `record_seconds` from `audio_io.py`: `frames = int(seconds * samplerate)`
(Python `int()` truncation; equal to the floor for the non-negative
durations `sd.rec` accepts), then a WAV file is written with
`setnchannels(channels)`, `setsampwidth(2)`, `setframerate(samplerate)`
and `frames × channels` int16 samples (2 bytes each) of data. -/
def record_seconds (seconds : ℚ) (samplerate : ℕ := 16000) (channels : ℕ := 1) :
    WavFile :=
  let frames : ℕ := (Int.floor (seconds * samplerate)).toNat
  { nchannels := channels
    sampwidth := 2
    framerate := samplerate
    dataBytes := frames * channels * 2 }

/-- `play_wav` from `audio_io.py`: `wf.readframes(wf.getnframes())` yields
`getnframes * nchannels * sampwidth` bytes (`getnframes` is the data size
divided by the frame size), and `np.frombuffer(data, dtype=np.int16)`
decodes them into two-byte samples.  Returns the decoded sample count and
the frame rate passed to `sd.play`. -/
def play_wav (wf : WavFile) : ℕ × ℕ :=
  let nframes := wf.dataBytes / (wf.nchannels * wf.sampwidth)
  (nframes * wf.nchannels * wf.sampwidth / 2, wf.framerate)

/-! ## `intents.py` / `llm.py`: tool-call handling and chat dispatch -/

/-- A Python value as produced by `json.loads`: `None`, booleans, numbers,
strings, lists and dicts (dicts as association lists with distinct keys
irrelevant to the extracted behaviour). -/
inductive Json
  | null
  | bool (b : Bool)
  | num (q : ℚ)
  | str (s : String)
  | arr (xs : List Json)
  | obj (fields : List (String × Json))

/-- Python `dict.get(k)`: `some` of the first binding of `k`, else `none`. -/
def dictGet (fields : List (String × Json)) (k : String) : Option Json :=
  (fields.find? (fun p => p.1 = k)).map (fun p => p.2)

/-- Python truthiness (`if not device_id:`) of a `Json` value. -/
def Json.pyTruthy : Json → Bool
  | .null => false
  | .bool b => b
  | .num q => q ≠ 0
  | .str s => s ≠ ""
  | .arr xs => ¬ xs.isEmpty
  | .obj fields => ¬ fields.isEmpty

/-- External calls `handle_tool` can perform: `scrypted.snapshot(device_id)`,
`scrypted.arm(device_id)` (both HTTP requests to the Scrypted server) and
`vlm.analyze_image(prompt, image)` (an HTTP request to Ollama). -/
inductive ExtCall
  | snapshot (deviceId : Json)
  | armCam (deviceId : Json)
  | analyze (prompt : Json)

/-- Python `==` between a value obtained from JSON and a string literal:
true exactly when the value is that string. -/
def Json.isStrEq (j : Json) (s : String) : Bool :=
  match j with
  | .str t => t = s
  | _ => false

/-- `block.get("tool") == name` in Python: `None == name` is false, and any
non-string JSON value compares unequal to a string. -/
def toolIs (tool : Option Json) (name : String) : Bool :=
  match tool with
  | some j => j.isStrEq name
  | none => false

/-- Results the external collaborators of `intents.py` would return:
`scrypted.snapshot` yields image bytes (modelled as a string token),
`vlm.analyze_image` yields the analysis text, `scrypted.arm` yields a
boolean. -/
structure ToolEnv where
  snapshot : Json → String
  analyze : Json → String → String
  armCam : Json → Bool

/-- `handle_tool` from `intents.py`, over a tool-call dict `block`.  Returns
the reply text together with the list of external HTTP calls performed, or
an error for the `AttributeError` Python would raise when a recognized
tool's `args` value is not a dict.  Mirrors the source: `tool =
block.get("tool")`, `args = block.get("args", {})`, each recognized branch
checks `if not device_id: return "device_id missing"`, and anything else
returns `"Unknown tool"`. -/
def handle_tool (env : ToolEnv) (block : List (String × Json)) :
    Except String (String × List ExtCall) :=
  let tool := dictGet block "tool"
  let argsVal := (dictGet block "args").getD (.obj [])
  if toolIs tool "scrypted.snapshot" then
    match argsVal with
    | .obj args =>
        match dictGet args "device_id" with
        | none => .ok ("device_id missing", [])
        | some v =>
            if v.pyTruthy then
              let image := env.snapshot v
              let prompt := (dictGet args "prompt").getD (.str "Describe the snapshot")
              .ok (env.analyze prompt image, [.snapshot v, .analyze prompt])
            else
              .ok ("device_id missing", [])
    | _ => .error "AttributeError"
  else if toolIs tool "scrypted.arm" then
    match argsVal with
    | .obj args =>
        match dictGet args "device_id" with
        | none => .ok ("device_id missing", [])
        | some v =>
            if v.pyTruthy then
              .ok (if env.armCam v then "Armed" else "Unable to arm", [.armCam v])
            else
              .ok ("device_id missing", [])
    | _ => .error "AttributeError"
  else
    .ok ("Unknown tool", [])

/-- `isinstance(block, dict) and "tool" in block` from `llm.chat`. -/
def isDictWithTool : Json → Bool
  | .obj fields => (dictGet fields "tool").isSome
  | _ => false

/-- The dispatch logic of `chat` in `llm.py`, applied to the backend's
response text `text = resp.json().get("response", "")`.  `loads` models
`json.loads` (`none` = `json.JSONDecodeError`), and `route_tool` models
`_route_tool`, i.e. `intents.handle_tool`.  The source returns `text`
verbatim when parsing fails, routes to the tool handler when the parse is
a dict containing the key `"tool"`, and otherwise returns `text`. -/
def chat (loads : String → Option Json) (route_tool : Json → String)
    (text : String) : String :=
  match loads text with
  | none => text
  | some block => if isDictWithTool block then route_tool block else text

/-! ## Lemmas about the wake-word detection loop -/

/-- Exhaustive description of one `wakeLoop` run: it blocks or propagates a
chunk exception leaving `_LAST_TRIGGER` unchanged, or returns a trigger at
a time `t` with `t - last > 1` and sets `_LAST_TRIGGER = t`. -/
theorem wakeLoop_cases (threshold : ℚ) :
    ∀ (events : List LoopEvent) (last : ℚ),
      wakeLoop threshold events last = (.blocked, last) ∨
      wakeLoop threshold events last = (.errored .chunkExn, last) ∨
      ∃ k t, wakeLoop threshold events last = (.triggered k t, t) ∧ t - last > 1
  | [], _ => Or.inl rfl
  | .exn :: _, _ => Or.inr (Or.inl rfl)
  | .chunk e :: rest, last => by
      by_cases h1 : e.score > threshold ∧ e.now - last > 1
      · exact Or.inr (Or.inr ⟨.wakeword, e.now, by simp [wakeLoop, h1], h1.2⟩)
      · by_cases h2 : e.key = true ∧ e.now - last > 1
        · exact Or.inr (Or.inr ⟨.push_to_talk, e.now,
            by simp only [wakeLoop]; rw [if_neg h1, if_pos h2], h2.2⟩)
        · have hstep : wakeLoop threshold (.chunk e :: rest) last =
              wakeLoop threshold rest last := by
            simp only [wakeLoop]; rw [if_neg h1, if_neg h2]
          rw [hstep]
          exact wakeLoop_cases threshold rest last

/-- Exhaustive description of a wake-word-mode `listen_for_wake` call,
including the microphone stream operations performed on each path. -/
theorem listen_wake_cases (threshold pttTime : ℚ) (es : List LoopEvent) (last : ℚ) :
    listen_for_wake false true threshold pttTime es last = (.blocked, [.opened], last) ∨
    listen_for_wake false true threshold pttTime es last =
      (.errored .chunkExn, [.opened, .stopped, .closed], last) ∨
    ∃ k t, listen_for_wake false true threshold pttTime es last =
      (.triggered k t, [.opened, .stopped, .closed], t) ∧ t - last > 1 := by
  rcases wakeLoop_cases threshold es last with h | h | ⟨k, t, h, hgt⟩
  · exact Or.inl (by simp [listen_for_wake, h])
  · exact Or.inr (Or.inl (by simp [listen_for_wake, h]))
  · exact Or.inr (Or.inr ⟨k, t, by simp [listen_for_wake, h], hgt⟩)

/-- Every trigger emitted by a sequence of wake-word-mode episodes fires
strictly more than the 1.0s debounce window after the `_LAST_TRIGGER`
value the sequence started from. -/
theorem runEpisodes_mem (threshold : ℚ) :
    ∀ (epss : List (List LoopEvent)) (last : ℚ) (p : Trigger × ℚ),
      p ∈ runEpisodes threshold epss last → p.2 - last > 1
  | [], last, p, hp => by simp [runEpisodes] at hp
  | es :: rest, last, p, hp => by
      rcases listen_wake_cases threshold 0 es last with h | h | ⟨k, t, h, hgt⟩
      · rw [runEpisodes, h] at hp
        exact runEpisodes_mem threshold rest last p hp
      · rw [runEpisodes, h] at hp
        exact runEpisodes_mem threshold rest last p hp
      · rw [runEpisodes, h] at hp
        rcases List.mem_cons.mp hp with rfl | hmem
        · exact hgt
        · have := runEpisodes_mem threshold rest t p hmem
          linarith

/-! ## Claim C1 -/

/-- C1 counterexample.  The claim asserts that in either mode no two
TriggerEvents returned by `listen_for_wake` are less than the debounce
window (default 1.0s) apart.  In push-to-talk mode the source returns as
soon as `keyboard.wait` does, with no debounce test: two successive calls
with key presses at times 5 and 5.5 both emit a trigger, only 0.5s
apart. -/
theorem debounce_violated_in_ptt_mode :
    (listen_for_wake true true (3/4) 5 [] 0).1 = .triggered .push_to_talk 5 ∧
    (listen_for_wake true true (3/4) (5 + 1/2) []
        (listen_for_wake true true (3/4) 5 [] 0).2.2).1 =
      .triggered .push_to_talk (5 + 1/2) ∧
    (5 + 1/2 : ℚ) - 5 < 1 :=
  ⟨by with_unfolding_all rfl, by with_unfolding_all rfl, by norm_num⟩

/-- C1 amended.  In wake-word mode (`USE_PUSH_TO_TALK = False`, with the
window hard-coded to 1.0s rather than configurable), any sequence of
`listen_for_wake` episodes threading the shared `_LAST_TRIGGER` emits
triggers in strictly increasing time order with every pair (both
wake-word and push-to-talk triggers, which share the one timestamp) more
than 1.0s apart.  In push-to-talk *mode* no debounce is enforced. -/
theorem wakeword_mode_triggers_pairwise_debounced (threshold : ℚ) :
    ∀ (epss : List (List LoopEvent)) (last : ℚ),
      (runEpisodes threshold epss last).Pairwise (fun a b => b.2 - a.2 > 1)
  | [], _ => List.Pairwise.nil
  | es :: rest, last => by
      rcases listen_wake_cases threshold 0 es last with h | h | ⟨k, t, h, _⟩
      · rw [runEpisodes, h]
        exact wakeword_mode_triggers_pairwise_debounced threshold rest last
      · rw [runEpisodes, h]
        exact wakeword_mode_triggers_pairwise_debounced threshold rest last
      · rw [runEpisodes, h]
        exact List.Pairwise.cons
          (fun q hq => runEpisodes_mem threshold rest t q hq)
          (wakeword_mode_triggers_pairwise_debounced threshold rest t)

/-! ## Claim C5 -/

/-- C5 counterexample.  The claim asserts a `WakeWord` event is emitted when
`score ≥ threshold` (with the debounce condition holding).  The source
tests the strict `score > threshold`: with the default threshold 0.75, a
chunk scoring exactly 0.75 at time 2 (debounce satisfied, `2 - 0 > 1`)
produces no trigger — the loop keeps blocking. -/
theorem threshold_equality_emits_nothing :
    (3/4 : ℚ) ≥ 3/4 ∧ (2 : ℚ) - 0 > 1 ∧
    (listen_for_wake false true (3/4) 0 [.chunk ⟨3/4, false, 2⟩] 0).1 = .blocked :=
  ⟨le_refl _, by norm_num, by with_unfolding_all rfl⟩

/-- C5 amended.  In wake-word mode, for every chunk whose score satisfies
the strict `score > threshold` while `now - _LAST_TRIGGER > 1.0` holds,
`listen_for_wake` returns exactly one `WakeWord` trigger for that chunk —
the call returns immediately at that chunk, so no further chunk is
consumed and no duplicate emission can occur. -/
theorem qualifying_chunk_single_wakeword (threshold pttTime last : ℚ)
    (e : IterEvent) (rest : List LoopEvent)
    (hscore : e.score > threshold) (hdeb : e.now - last > 1) :
    listen_for_wake false true threshold pttTime (.chunk e :: rest) last =
      (.triggered .wakeword e.now, [.opened, .stopped, .closed], e.now) := by
  have h : wakeLoop threshold (.chunk e :: rest) last =
      (.triggered .wakeword e.now, e.now) := by
    simp [wakeLoop, hscore, hdeb]
  simp [listen_for_wake, h]

/-- C5 witness: a chunk scoring 0.8 against threshold 0.75 at time 2 with
`_LAST_TRIGGER = 0` yields the single `WakeWord` trigger. -/
theorem qualifying_chunk_single_wakeword_witness :
    listen_for_wake false true (3/4) 0 [.chunk ⟨4/5, false, 2⟩] 0 =
      (.triggered .wakeword 2, [.opened, .stopped, .closed], 2) :=
  qualifying_chunk_single_wakeword (3/4) 0 0 ⟨4/5, false, 2⟩ []
    (by norm_num) (by norm_num)

/-! ## Claim C6 -/

/-- C6.  When, in the same loop iteration, the score exceeds the threshold
and the push-to-talk key is pressed and the debounce window has elapsed,
the wake-word test is evaluated first and wins: the call returns the
`WakeWord` trigger, not `PushToTalk`. -/
theorem wakeword_precedence_over_ptt (threshold pttTime last : ℚ)
    (e : IterEvent) (rest : List LoopEvent)
    (hscore : e.score > threshold) (hkey : e.key = true) (hdeb : e.now - last > 1) :
    (listen_for_wake false true threshold pttTime (.chunk e :: rest) last).1 =
      .triggered .wakeword e.now := by
  have h : wakeLoop threshold (.chunk e :: rest) last =
      (.triggered .wakeword e.now, e.now) := by
    simp [wakeLoop, hscore, hdeb]
  simp [listen_for_wake, h]

/-- C6 witness: score 0.9 > 0.75 with the key pressed in the same iteration
returns `wakeword`. -/
theorem wakeword_precedence_over_ptt_witness :
    (listen_for_wake false true (3/4) 0 [.chunk ⟨9/10, true, 2⟩] 0).1 =
      .triggered .wakeword 2 :=
  wakeword_precedence_over_ptt (3/4) 0 0 ⟨9/10, true, 2⟩ []
    (by norm_num) rfl (by norm_num)

/-! ## Claim C7 -/

/-- C7.  On every exit path of a wake-listen episode the stream trace is
balanced: either no stream was ever opened (push-to-talk mode, or the
`openwakeword is None` fast-fail) or the opened stream is stopped and
then closed before the call returns (trigger return or an exception in
the loop body).  `blocked` is not an exit path — it marks the call still
sitting inside `q.get()`.  In particular, when the scoring capability is
unavailable the detector raises `DetectorUnavailable` with no stream
operation performed. -/
theorem stream_closed_on_exit (usePTT oww : Bool) (threshold pttTime : ℚ)
    (events : List LoopEvent) (last : ℚ) :
    ((listen_for_wake usePTT oww threshold pttTime events last).1 ≠ .blocked →
      (listen_for_wake usePTT oww threshold pttTime events last).2.1 = [] ∨
      (listen_for_wake usePTT oww threshold pttTime events last).2.1 =
        [.opened, .stopped, .closed]) ∧
    (usePTT = false → oww = false →
      (listen_for_wake usePTT oww threshold pttTime events last).2.1 = [] ∧
      (listen_for_wake usePTT oww threshold pttTime events last).1 =
        .errored .detectorUnavailable) := by
  cases usePTT with
  | true =>
      refine ⟨fun _ => Or.inl rfl, fun hf _ => by cases hf⟩
  | false =>
      cases oww with
      | false =>
          refine ⟨fun _ => Or.inl rfl, fun _ _ => ⟨rfl, rfl⟩⟩
      | true =>
          refine ⟨fun hb => ?_, fun _ hf => by cases hf⟩
          rcases listen_wake_cases threshold pttTime events last with h | h | ⟨k, t, h, _⟩
          · exact absurd (by rw [h]) hb
          · exact Or.inr (by rw [h])
          · exact Or.inr (by rw [h])

/-- C7 witness: with `openwakeword` unavailable in wake-word mode the call
raises `DetectorUnavailable` having performed no stream operation. -/
theorem stream_closed_on_exit_witness :
    (listen_for_wake false false 1 0 [] 0).2.1 = [] ∧
    (listen_for_wake false false 1 0 [] 0).1 = .errored .detectorUnavailable :=
  (stream_closed_on_exit false false 1 0 [] 0).2 rfl rfl

/-! ## Claim C2 -/

/-- A turn whose transcription succeeds with `"hello"` and whose routing
(`intents.handle_command`) raises `"boom"`. -/
def envRouteFails : TurnEnv :=
  { wake := .ok ()
    record := .ok "/tmp/a.wav"
    transcribe := fun _ => .ok "hello"
    handle_command := fun _ => .error "boom"
    speak := fun _ => .ok ()
    apology := .ok () }

/-- C2 counterexample.  The claim asserts that when any step of a turn
raises, `(last_transcript, last_response)` retains exactly its pre-turn
values.  In the source `last_transcript` is assigned as soon as
`stt.transcribe` returns, before routing runs: a turn whose routing
raises after a successful transcription leaves the state partially
updated — `last_transcript` holds the new transcript while
`last_response` still holds the previous turn's response. -/
theorem routing_failure_updates_transcript :
    run_once envRouteFails ⟨some "t0", some "r0"⟩ =
      (⟨some "hello", some "r0"⟩, .error "boom") ∧
    (⟨some "hello", some "r0"⟩ : BrainState) ≠ ⟨some "t0", some "r0"⟩ :=
  ⟨by with_unfolding_all rfl, by decide⟩

/-- C2 amended.  `Brain.run_once` updates the last-turn state incrementally,
not atomically: a failure in `listen_for_wake`, `record_seconds` or
`transcribe` leaves the state unchanged; a failure in `handle_command`
leaves `last_transcript` set to the new transcript and `last_response`
untouched; a failure in `speak` — and likewise a fully successful turn —
leaves both fields set to the new `(transcript, response)` pair. -/
theorem run_once_state_update (env : TurnEnv) (st : BrainState) :
    (∀ e, env.wake = .error e → run_once env st = (st, .error e)) ∧
    (∀ e, env.wake = .ok () → env.record = .error e →
      run_once env st = (st, .error e)) ∧
    (∀ w e, env.wake = .ok () → env.record = .ok w → env.transcribe w = .error e →
      run_once env st = (st, .error e)) ∧
    (∀ w t e, env.wake = .ok () → env.record = .ok w → env.transcribe w = .ok t →
      env.handle_command t = .error e →
      run_once env st = (⟨some t, st.lastResponse⟩, .error e)) ∧
    (∀ w t r e, env.wake = .ok () → env.record = .ok w → env.transcribe w = .ok t →
      env.handle_command t = .ok r → env.speak r = .error e →
      run_once env st = (⟨some t, some r⟩, .error e)) ∧
    (∀ w t r, env.wake = .ok () → env.record = .ok w → env.transcribe w = .ok t →
      env.handle_command t = .ok r → env.speak r = .ok () →
      run_once env st = (⟨some t, some r⟩, .ok ())) := by
  refine ⟨?_, ?_, ?_, ?_, ?_, ?_⟩
  · intro e h1
    simp [run_once, h1]
  · intro e h1 h2
    simp [run_once, h1, h2]
  · intro w e h1 h2 h3
    simp [run_once, h1, h2, h3]
  · intro w t e h1 h2 h3 h4
    simp [run_once, h1, h2, h3, h4]
  · intro w t r e h1 h2 h3 h4 h5
    simp [run_once, h1, h2, h3, h4, h5]
  · intro w t r h1 h2 h3 h4 h5
    simp [run_once, h1, h2, h3, h4, h5]

/-- C2 witness: starting from the initial `(None, None)` state, a turn
transcribing `"hello"` whose routing raises `"boom"` ends with
`last_transcript = "hello"` and `last_response` still `None`. -/
theorem run_once_state_update_witness :
    run_once envRouteFails ⟨none, none⟩ = (⟨some "hello", none⟩, .error "boom") :=
  (run_once_state_update envRouteFails ⟨none, none⟩).2.2.2.1
    "/tmp/a.wav" "hello" "boom" rfl rfl rfl rfl

/-! ## Claim C3 -/

/-- A turn iteration in wake-word mode with `openwakeword` unimportable:
`wake.listen_for_wake` raises `RuntimeError("openwakeword not
available")` before any later step runs; the apology `tts.speak`
succeeds. -/
def envDetectorGone : TurnEnv :=
  { wake := .error "openwakeword not available"
    record := .ok ""
    transcribe := fun _ => .ok ""
    handle_command := fun _ => .ok ""
    speak := fun _ => .ok ()
    apology := .ok () }

/-- C3 (code bug).  The claim — matching §7 of the spec — says the
`DetectorUnavailable` error must not be swallowed by the turn loop and
must prevent it from starting.  The source raises the `RuntimeError`
inside `run_once`, within the loop's blanket `except Exception`: the loop
starts anyway, and every iteration catches the error and apologizes.
Evaluating the model at the failing configuration (wake-word mode,
`openwakeword = None`): the detector errors before opening any stream,
and two loop iterations both log the caught error and apologize — the
loop keeps running instead of failing at startup. -/
theorem detector_unavailable_apologized_every_iteration :
    (listen_for_wake false false (3/4) 0 [] 0).1 = .errored .detectorUnavailable ∧
    run ⟨none, none⟩ [envDetectorGone, envDetectorGone] =
      (⟨none, none⟩, [.failedApologized "openwakeword not available",
                      .failedApologized "openwakeword not available"]) :=
  ⟨by with_unfolding_all rfl, by with_unfolding_all rfl⟩

/-! ## Claim C4 -/

/-- C4.  Any exception raised by a turn's steps aborts only that turn:
`run` logs the error in that iteration's `TurnLog` entry together with
the outcome of exactly one apology attempt (whose own failure is recorded
as swallowed, not propagated), and the rest of the loop proceeds exactly
as a fresh run from the post-turn state.  The final conjunct shows the
loop never terminates early: every driven iteration produces its log
entry, whatever mix of failures occurs. -/
theorem turn_failures_isolated (st : BrainState) (env : TurnEnv)
    (rest : List TurnEnv) (e : String) (hfail : (run_once env st).2 = .error e) :
    (run st (env :: rest)).2 =
      (match env.apology with
        | .ok _ => TurnLog.failedApologized e
        | .error e2 => TurnLog.failedApologySwallowed e e2) ::
        (run (run_once env st).1 rest).2 ∧
    (run st (env :: rest)).1 = (run (run_once env st).1 rest).1 ∧
    (∀ (st2 : BrainState) (envs : List TurnEnv),
      ((run st2 envs).2).length = envs.length) := by
  have hlen : ∀ (envs : List TurnEnv) (st2 : BrainState),
      ((run st2 envs).2).length = envs.length := by
    intro envs
    induction envs with
    | nil => intro st2; rfl
    | cons env2 rest2 ih =>
        intro st2
        rw [run]
        rcases h2 : (run_once env2 st2).2 with e2 | u
        · simp [ih]
        · simp [ih]
  refine ⟨?_, ?_, fun st2 envs => hlen envs st2⟩
  · rw [run, hfail]
  · rw [run, hfail]

/-- C4 witness: a turn failing in routing with a succeeding apology logs
`failedApologized "boom"` and the (empty) remainder of the loop is
unaffected; the log has one entry per driven iteration. -/
theorem turn_failures_isolated_witness :
    (run ⟨none, none⟩ [envRouteFails]).2 = [.failedApologized "boom"] ∧
    ((run ⟨none, none⟩ [envRouteFails]).2).length = 1 := by
  have h := turn_failures_isolated ⟨none, none⟩ envRouteFails [] "boom"
    (by with_unfolding_all rfl)
  exact ⟨h.1, by rw [h.1]; simp [run]⟩

/-! ## Claim C8 -/

/-- C8 counterexample.  The claim asserts that for *every* duration `d` the
artifact decodes into exactly `d * 16000` samples.  `record_seconds`
computes `frames = int(seconds * samplerate)`, truncating: for
`d = 1/32000 s` at 16 kHz, `d * 16000 = 1/2`, the capture writes 0
frames, and playback decodes 0 samples — not `d * 16000`. -/
theorem roundtrip_fractional_duration :
    (play_wav (record_seconds (1/32000) 16000 1)).1 = 0 ∧
    ¬ (((play_wav (record_seconds (1/32000) 16000 1)).1 : ℚ) =
        (1/32000 : ℚ) * 16000) := by
  have h : (play_wav (record_seconds (1/32000) 16000 1)).1 = 0 := by
    with_unfolding_all rfl
  exact ⟨h, by rw [h]; norm_num⟩

/-- C8 amended.  For every non-negative duration `d`, an artifact written by
`record_seconds d rate ch` carries the requested header (`ch` channels,
sample width 2 bytes, frame rate `rate`) and `play_wav` decodes it into
exactly `⌊d * rate⌋ * ch` samples — equal to `d * rate` samples (mono)
exactly when `d * rate` is an integer, as with the 4.0 s default at
16 kHz; fractional products are truncated by `int()`. -/
theorem roundtrip_sample_count (d : ℚ) (rate ch : ℕ) (hd : 0 ≤ d) (hch : 0 < ch) :
    (record_seconds d rate ch).nchannels = ch ∧
    (record_seconds d rate ch).sampwidth = 2 ∧
    (record_seconds d rate ch).framerate = rate ∧
    (play_wav (record_seconds d rate ch)).1 = (⌊d * rate⌋).toNat * ch ∧
    (∀ n : ℕ, (d * rate : ℚ) = n →
      (play_wav (record_seconds d rate ch)).1 = n * ch) := by
  have hkey : (play_wav (record_seconds d rate ch)).1 = (⌊d * rate⌋).toNat * ch := by
    simp only [record_seconds, play_wav]
    rw [mul_assoc (⌊d * rate⌋).toNat ch 2,
      Nat.mul_div_cancel _ (by positivity),
      Nat.mul_div_cancel _ (by positivity)]
  refine ⟨rfl, rfl, rfl, hkey, ?_⟩
  intro n hn
  rw [hkey, hn]
  simp

/-- C8 witness: the default 4.0 s capture at 16 kHz mono decodes into
exactly `4 * 16000 = 64000` samples. -/
theorem roundtrip_sample_count_witness :
    (play_wav (record_seconds 4 16000 1)).1 = 64000 := by
  have h := (roundtrip_sample_count 4 16000 1 (by norm_num) (by norm_num)).2.2.2.2
    64000 (by norm_num)
  simpa using h

/-! ## Claim C9 -/

/-- C9.  For a recognized tool name (`"scrypted.snapshot"` or
`"scrypted.arm"`) whose `args` mapping lacks a truthy `device_id`
(absent key, or any falsy value such as `""`, `0`, `None`), `handle_tool`
returns `"device_id missing"` without raising and with no external HTTP
call performed; for any other tool name it returns `"Unknown tool"`,
likewise without any call. -/
theorem handle_tool_missing_device (env : ToolEnv) (block : List (String × Json)) :
    ((toolIs (dictGet block "tool") "scrypted.snapshot" = true ∨
      toolIs (dictGet block "tool") "scrypted.arm" = true) →
      ∀ args, (dictGet block "args").getD (.obj []) = .obj args →
        (∀ v, dictGet args "device_id" = some v → v.pyTruthy = false) →
        handle_tool env block = .ok ("device_id missing", [])) ∧
    (toolIs (dictGet block "tool") "scrypted.snapshot" = false →
      toolIs (dictGet block "tool") "scrypted.arm" = false →
      handle_tool env block = .ok ("Unknown tool", [])) := by
  constructor
  · intro hrec args hargs hdev
    by_cases hs : toolIs (dictGet block "tool") "scrypted.snapshot" = true
    · simp only [handle_tool]
      rw [if_pos hs, hargs]
      rcases hv : dictGet args "device_id" with _ | v
      · simp [hv]
      · simp [hv, hdev v hv]
    · have ha : toolIs (dictGet block "tool") "scrypted.arm" = true := by
        rcases hrec with hs2 | ha
        · exact absurd hs2 hs
        · exact ha
      simp only [handle_tool]
      rw [if_neg hs, if_pos ha, hargs]
      rcases hv : dictGet args "device_id" with _ | v
      · simp [hv]
      · simp [hv, hdev v hv]
  · intro hs ha
    simp [handle_tool, hs, ha]

/-- Concrete external collaborators for evaluating `handle_tool`. -/
def toolEnvW : ToolEnv :=
  { snapshot := fun _ => "image-bytes"
    analyze := fun _ _ => "analysis"
    armCam := fun _ => true }

/-- C9 witness: an `scrypted.arm` call whose `device_id` is the empty string
returns `"device_id missing"` with no external call. -/
theorem handle_tool_missing_device_witness :
    handle_tool toolEnvW
      [("tool", .str "scrypted.arm"), ("args", .obj [("device_id", .str "")])] =
      .ok ("device_id missing", []) := by
  apply (handle_tool_missing_device toolEnvW
      [("tool", .str "scrypted.arm"), ("args", .obj [("device_id", .str "")])]).1
    (Or.inr (by with_unfolding_all rfl)) [("device_id", .str "")]
    (by with_unfolding_all rfl)
  intro v hv
  have hveq : some (Json.str "") = some v := by
    rw [← hv]; with_unfolding_all rfl
  cases hveq
  with_unfolding_all rfl

/-! ## Claim C10 -/

/-- C10.  `chat` hands its backend's response text to the tool handler if
and only if `json.loads` succeeds on that text and yields a dict
containing the key `"tool"`; a parse failure, a non-dict JSON value, or a
dict without `"tool"` all make `chat` return the text verbatim. -/
theorem chat_tool_routing (loads : String → Option Json) (rt : Json → String)
    (text : String) :
    (loads text = none → chat loads rt text = text) ∧
    (∀ b, loads text = some b → isDictWithTool b = true →
      chat loads rt text = rt b) ∧
    (∀ b, loads text = some b → isDictWithTool b = false →
      chat loads rt text = text) := by
  refine ⟨?_, ?_, ?_⟩
  · intro h
    simp [chat, h]
  · intro b h hb
    simp [chat, h, hb]
  · intro b h hb
    simp [chat, h, hb]

/-- A concrete `json.loads` for evaluation: `"call"` parses to a tool-call
dict, everything else fails to parse. -/
def loadsW : String → Option Json := fun s =>
  if s = "call" then some (.obj [("tool", .str "scrypted.arm")]) else none

/-- C10 witness: a parsed tool-call dict is routed; non-JSON text comes back
verbatim. -/
theorem chat_tool_routing_witness :
    chat loadsW (fun _ => "routed") "call" = "routed" ∧
    chat loadsW (fun _ => "routed") "plain" = "plain" := by
  refine ⟨?_, ?_⟩
  · exact (chat_tool_routing loadsW (fun _ => "routed") "call").2.1
      (.obj [("tool", .str "scrypted.arm")])
      (by with_unfolding_all rfl) (by with_unfolding_all rfl)
  · exact (chat_tool_routing loadsW (fun _ => "routed") "plain").1
      (by with_unfolding_all rfl)

end Assistant
